import Mathlib

/-!
Verification of the texture-rs scenario-dispatch engine.

Shallow embedding of the repository's code:
  * `src/src/scenario.rs` — `Loader` and the `Scenario` trait,
  * `src/src/state.rs`    — `BasicState` and the `State` trait,
  * `src/src/master.rs`   — `GameMaster` and its main loop,
  * `src/examples/example.rs` — the example's `MyState` flag accessors.

Modelling choices, recorded once here:
  * Scenario trait objects are handled through `Rc<RefCell<...>>` references in
    the Rust code.  We defunctionalise: a reference is an identifier of type
    `ι`, interpreted by a fixed environment `impls : ι → Scenario ι σ` carried
    in the `GameMaster` record (scenario objects in this code are stateless, so
    cloning an `Rc` is copying the identifier).
  * A handler receives `&Rc<RefCell<S>>` (the game state) and
    `&Rc<RefCell<Loader<S>>>` and may mutate both through the `RefCell`s; we
    model a handler as a pure function returning the `i32` outcome together
    with the updated state and loader.
  * `HashMap` is modelled as an association list with first-match lookup;
    insertion prepends, which gives the same lookup semantics as overwriting.
  * Rust panics (`Option::unwrap` on `None` in `Loader::get_scenario`) are
    modelled by `Option`/`Except`: `none` marks the panic, and the engine-level
    run propagates it as a `Diag` value.
  * Console output (`println!`) and `linenoise` configuration are not
    observable by any claim and are not modelled; the engine instead emits a
    trace of `Event`s recording which handler was invoked with what argument.
  * The input source `linenoise::input` yields `Option String`; a run consumes
    a finite list of such read results (the observable prefix of the infinite
    loop).
-/

/-- Modelled from the spec (the file `src/util.rs` is not under `src/`):
the `Continue` outcome constant `TICK`, an `i32` value distinct from `LOAD`. -/
def TICK : Int := 0

/-- Modelled from the spec (the file `src/util.rs` is not under `src/`):
the transition-request outcome constant `LOAD`, an `i32` value distinct from
`TICK`. -/
def LOAD : Int := 1

/-- Models Rust's `str::trim`: removes whitespace from both ends. -/
def strTrim (s : String) : String :=
  String.mk (((s.data.dropWhile Char.isWhitespace).reverse.dropWhile
    Char.isWhitespace).reverse)

/-- `Loader<S>` from `scenario.rs`: a single optional scenario reference. -/
structure Loader (ι : Type) where
  scenario : Option ι
deriving DecidableEq

/-- `Loader::new`: the empty loader. -/
def Loader.new {ι : Type} : Loader ι := ⟨none⟩

/-- `Loader::get_scenario`: `self.scenario.clone().unwrap().clone()`.
The `unwrap` panics when the field is `None`; we return `none` there. -/
def Loader.get_scenario {ι : Type} (l : Loader ι) : Option ι :=
  l.scenario

/-- `Loader::set_scenario`: stores the given scenario reference. -/
def Loader.set_scenario {ι : Type} (_l : Loader ι) (s : ι) : Loader ι :=
  ⟨some s⟩

/-- The `Scenario<S>` trait from `scenario.rs`: an on-enter handler `load` and
an on-input handler `do_action`, each returning the `i32` outcome and the
updated state and loader. -/
structure Scenario (ι σ : Type) where
  load : σ → Loader ι → Int × σ × Loader ι
  do_action : String → σ → Loader ι → Int × σ × Loader ι

/-- Modelled from the spec (the file `src/command.rs` is not under `src/`):
the `GameCommand<S>` trait, a single `execute` handler with the same shape as
the scenario handlers, as used by `master.rs` and `example.rs`. -/
structure GameCommand (ι σ : Type) where
  execute : σ → Loader ι → Int × σ × Loader ι

/-- Engine-halting diagnostics.  The code's only halt is the `unwrap` panic in
`Loader::get_scenario` (`unwrapPanic`, which carries no scenario identifier).
`missingScenario` is the diagnostic shape the spec's words describe — a report
naming the missing scenario — kept side by side for comparison; the code never
produces it. -/
inductive Diag (ι : Type) where
  | unwrapPanic : Diag ι
  | missingScenario (target : ι) : Diag ι
deriving DecidableEq

/-- Whether a diagnostic names a scenario. -/
def Diag.namesScenario {ι : Type} : Diag ι → Bool
  | .unwrapPanic => false
  | .missingScenario _ => true

/-- Observable events of a run: each read from the input source and each
handler invocation (global command `execute`, scenario `do_action`, scenario
`load`). -/
inductive Event (ι : Type) where
  | readLine (i : Option String) : Event ι
  | cmdExec (name : String) : Event ι
  | action (s : ι) (cmd : String) : Event ι
  | loadEv (s : ι) : Event ι
deriving DecidableEq

/-- Whether an event is a read from the input source. -/
def Event.isRead {ι : Type} : Event ι → Bool
  | .readLine _ => true
  | _ => false

/-- Number of scenario-`load` invocations recorded in a trace. -/
def countLoads {ι : Type} (tr : List (Event ι)) : Nat :=
  tr.countP fun e => match e with | .loadEv _ => true | _ => false

/-- `GameMaster<S>` from `master.rs`, with `impls` interpreting scenario
references (see the header comment). -/
structure GameMaster (ι σ : Type) where
  current : ι
  loader : Loader ι
  state : σ
  commands : List (String × GameCommand ι σ)
  impls : ι → Scenario ι σ

/-- `GameMaster::new`: builds a fresh loader, sets the start scenario in it,
and starts with an empty command map. -/
def GameMaster.new {ι σ : Type} (impls : ι → Scenario ι σ) (state : σ)
    (start : ι) : GameMaster ι σ :=
  { current := start
    loader := Loader.new.set_scenario start
    state := state
    commands := []
    impls := impls }

/-- `GameMaster::add_command`: inserts into the command map (overwrite on
re-registration, realised by prepend plus first-match lookup). -/
def GameMaster.add_command {ι σ : Type} (gm : GameMaster ι σ) (name : String)
    (c : GameCommand ι σ) : GameMaster ι σ :=
  { gm with commands := (name, c) :: gm.commands }

/-- `GameMaster::exec_game_command`: looks the trimmed input up in the command
map; on a miss returns `TICK` without invoking anything, on a hit invokes the
command's `execute`. -/
def GameMaster.exec_game_command {ι σ : Type} (gm : GameMaster ι σ)
    (command : String) : Int × GameMaster ι σ × List (Event ι) :=
  match gm.commands.lookup command with
  | none => (TICK, gm, [])
  | some c =>
      let r := c.execute gm.state gm.loader
      (r.1, { gm with state := r.2.1, loader := r.2.2 },
        [Event.cmdExec command])

/-- `GameMaster::exec_current_scenario`: invokes the current scenario's
`do_action` on the (re-)trimmed input. -/
def GameMaster.exec_current_scenario {ι σ : Type} (gm : GameMaster ι σ)
    (command : String) : Int × GameMaster ι σ × List (Event ι) :=
  let r := (gm.impls gm.current).do_action (strTrim command) gm.state gm.loader
  (r.1, { gm with state := r.2.1, loader := r.2.2 },
    [Event.action gm.current (strTrim command)])

/-- `GameMaster::load_scenario`: `self.current = self.loader.borrow()
.get_scenario();` (panicking when the loader is empty), then invokes the new
current scenario's `load`, returning its outcome. -/
def GameMaster.load_scenario {ι σ : Type} (gm : GameMaster ι σ) :
    Except (Diag ι) (Int × GameMaster ι σ × List (Event ι)) :=
  match gm.loader.get_scenario with
  | none => .error Diag.unwrapPanic
  | some s =>
      let gm1 := { gm with current := s }
      let r := (gm1.impls gm1.current).load gm1.state gm1.loader
      .ok (r.1, { gm1 with state := r.2.1, loader := r.2.2 },
        [Event.loadEv s])

/-- One iteration body of `main_loop` after a line of input was obtained:
`exec_game_command` on the trimmed line (result discarded, line 258), then
`exec_game_command` again (line 259) branching on `LOAD`; otherwise
`exec_current_scenario`, branching on `LOAD`.  Both `load_scenario` call
sites discard its returned outcome. -/
def GameMaster.turn {ι σ : Type} (gm : GameMaster ι σ) (input : String) :
    Except (Diag ι) (GameMaster ι σ × List (Event ι)) :=
  let command := input
  let r1 := gm.exec_game_command (strTrim command)
  let r2 := r1.2.1.exec_game_command (strTrim command)
  if r2.1 = LOAD then
    match r2.2.1.load_scenario with
    | .error d => .error d
    | .ok r3 => .ok (r3.2.1, r1.2.2 ++ r2.2.2 ++ r3.2.2)
  else
    let r3 := r2.2.1.exec_current_scenario (strTrim command)
    if r3.1 = LOAD then
      match r3.2.1.load_scenario with
      | .error d => .error d
      | .ok r4 => .ok (r4.2.1, r1.2.2 ++ r2.2.2 ++ r3.2.2 ++ r4.2.2)
    else .ok (r3.2.1, r1.2.2 ++ r2.2.2 ++ r3.2.2)

/-- The `loop` of `main_loop`, consuming a finite list of read results from
`linenoise::input`.  A `none` read (`linenoise` returned `None`, i.e.
end-of-input or read failure) hits the `None => { continue }` arm: the engine
loops straight back to the next read. -/
def GameMaster.mainLoopAux {ι σ : Type} :
    GameMaster ι σ → List (Option String) →
      List (Event ι) × Except (Diag ι) (GameMaster ι σ)
  | gm, [] => ([], .ok gm)
  | gm, none :: rest =>
      let r := gm.mainLoopAux rest
      (Event.readLine none :: r.1, r.2)
  | gm, some input :: rest =>
      match gm.turn input with
      | .error d => ([Event.readLine (some input)], .error d)
      | .ok g =>
          let r := g.1.mainLoopAux rest
          (Event.readLine (some input) :: (g.2 ++ r.1), r.2)

/-- `GameMaster::main_loop`: first invokes the starting scenario's `load`
directly (line 244, outcome discarded), then runs the loop. -/
def GameMaster.main_loop {ι σ : Type} (gm : GameMaster ι σ)
    (inputs : List (Option String)) :
    List (Event ι) × Except (Diag ι) (GameMaster ι σ) :=
  let r := (gm.impls gm.current).load gm.state gm.loader
  let gm0 := { gm with state := r.2.1, loader := r.2.2 }
  let l := gm0.mainLoopAux inputs
  (Event.loadEv gm.current :: l.1, l.2)

/-- `GameMaster::start_game`: calls `main_loop`. -/
def GameMaster.start_game {ι σ : Type} (gm : GameMaster ι σ)
    (inputs : List (Option String)) :
    List (Event ι) × Except (Diag ι) (GameMaster ι σ) :=
  gm.main_loop inputs

/-- The trace of events a run produces. -/
def runTrace {ι σ : Type} (gm : GameMaster ι σ)
    (inputs : List (Option String)) : List (Event ι) :=
  (gm.start_game inputs).1

/-- The final state of a run, when it did not panic. -/
def finalStateOf {ι σ : Type} (gm : GameMaster ι σ)
    (inputs : List (Option String)) : Option σ :=
  match (gm.start_game inputs).2 with
  | .ok g => some g.state
  | .error _ => none

/-- Events emitted by a `load_scenario` call (empty on panic). -/
def loadEventsOf {ι σ : Type}
    (r : Except (Diag ι) (Int × GameMaster ι σ × List (Event ι))) :
    List (Event ι) :=
  match r with
  | .ok x => x.2.2
  | .error _ => []

/-- Events emitted by one `turn` (empty when the turn panicked). -/
def turnEventsOf {ι σ : Type} (gm : GameMaster ι σ) (input : String) :
    List (Event ι) :=
  match gm.turn input with
  | .ok g => g.2
  | .error _ => []

/-- Scenario identifiers for the concrete configurations below. -/
inductive SId where
  | start
  | second
  | third
deriving DecidableEq

/-- A completely inert scenario: both handlers return `TICK` and change
nothing. -/
def trivScenario : Scenario SId Nat :=
  { load := fun n l => (TICK, n, l)
    do_action := fun _ n l => (TICK, n, l) }

/-- All scenarios inert. -/
def trivImpls : SId → Scenario SId Nat := fun _ => trivScenario

/-- A command whose `execute` increments the `Nat` state and returns `TICK`:
the state counts how many times the command actually ran. -/
def hitCmd : GameCommand SId Nat :=
  { execute := fun n l => (TICK, n + 1, l) }

/-- Engine with inert scenarios and the counting command registered under
`"hit"`. -/
def gmC1 : GameMaster SId Nat :=
  (GameMaster.new trivImpls 0 SId.start).add_command "hit" hitCmd

/-- Scenarios whose `do_action` increments the `Nat` state: the state counts
how many times the active scenario's on-input handler ran. -/
def countActionImpls : SId → Scenario SId Nat := fun _ =>
  { load := fun n l => (TICK, n, l)
    do_action := fun _ n l => (TICK, n + 1, l) }

/-- A command whose `execute` changes nothing and returns `TICK`. -/
def helloCmd : GameCommand SId Nat :=
  { execute := fun n l => (TICK, n, l) }

/-- Engine with on-input-counting scenarios and an inert command registered
under `"hello"`. -/
def gmC2 : GameMaster SId Nat :=
  (GameMaster.new countActionImpls 0 SId.start).add_command "hello" helloCmd

/-- Engine with inert scenarios and no commands, fed end-of-input signals. -/
def gmC3 : GameMaster SId Nat :=
  GameMaster.new trivImpls 0 SId.start

/-- Chained-transition configuration: `start`'s on-input requests a transition
to `second`; `second`'s on-enter itself requests a transition to `third`;
`third` is inert. -/
def chainImpls : SId → Scenario SId Nat
  | .start =>
      { load := fun n l => (TICK, n, l)
        do_action := fun _ n l => (LOAD, n, l.set_scenario SId.second) }
  | .second =>
      { load := fun n l => (LOAD, n, l.set_scenario SId.third)
        do_action := fun _ n l => (TICK, n, l) }
  | .third => trivScenario

/-- Engine for the chained-transition run. -/
def gmC4 : GameMaster SId Nat :=
  GameMaster.new chainImpls 0 SId.start

/-- Self-reload configuration: `start`'s on-input always requests a transition
back to `start` itself. -/
def selfImpls : SId → Scenario SId Nat := fun _ =>
  { load := fun n l => (TICK, n, l)
    do_action := fun _ n l => (LOAD, n, l.set_scenario SId.start) }

/-- Engine for the self-reload run. -/
def gmC5 : GameMaster SId Nat :=
  GameMaster.new selfImpls 0 SId.start

/-- An engine whose loader slot is empty (`Loader::new` without any
`set_scenario`), exercising the `unwrap` in `Loader::get_scenario`. -/
def gmC6 : GameMaster SId Nat :=
  { current := SId.start
    loader := Loader.new
    state := 0
    commands := []
    impls := trivImpls }

/-- `BasicState` from `state.rs`: flag and value maps plus the current and
pending scenario names (`HashMap`s as association lists). -/
structure BasicState where
  flags : List (String × Bool)
  values : List (String × Int)
  current : String
  loader : String
deriving DecidableEq

/-- `BasicState::new`. -/
def BasicState.new : BasicState :=
  { flags := [], values := [], current := "", loader := "start" }

/-- `BasicState::clear`: removes all keys and resets the scenario names. -/
def BasicState.clear (_s : BasicState) : BasicState :=
  { flags := [], values := [], current := "", loader := "start" }

/-- `BasicState::set_scenario`. -/
def BasicState.set_scenario (s : BasicState) (name : String) : BasicState :=
  { s with loader := name }

/-- `BasicState::has_next_scenario`: `!self.loader.is_empty()`. -/
def BasicState.has_next_scenario (s : BasicState) : Bool :=
  !s.loader.isEmpty

/-- `BasicState::get_current_scenario`. -/
def BasicState.get_current_scenario (s : BasicState) : String :=
  s.current

/-- `BasicState::get_next_scenario`. -/
def BasicState.get_next_scenario (s : BasicState) : String :=
  s.loader

/-- `BasicState::load_scenario`: commits the pending name and clears it. -/
def BasicState.load_scenario (s : BasicState) : BasicState :=
  { s with current := s.loader, loader := "" }

/-- `MyState` from `examples/example.rs`: the example's domain state, a flag
map (`HashMap` as association list with first-match lookup; insertion
prepends, which matches overwriting). -/
structure MyState where
  flags : List (String × Bool)
deriving DecidableEq

/-- `MyState::new`. -/
def MyState.new : MyState := ⟨[]⟩

/-- `MyState::clear`: inserts `in_start = true` (the example's `clear` only
inserts this key; it does not empty the map). -/
def MyState.clear (m : MyState) : MyState :=
  ⟨("in_start", true) :: m.flags⟩

/-- `MyState::set_flag_true`. -/
def MyState.set_flag_true (m : MyState) (name : String) : MyState :=
  ⟨(name, true) :: m.flags⟩

/-- `MyState::set_flag_false`. -/
def MyState.set_flag_false (m : MyState) (name : String) : MyState :=
  ⟨(name, false) :: m.flags⟩

/-- `MyState::get_flag`: `Some(s) => s.clone(), None => false`. -/
def MyState.get_flag (m : MyState) (name : String) : Bool :=
  (m.flags.lookup name).getD false

/-- The mutating operations of the example's `CustomState` interface. -/
inductive MyOp where
  | clearOp : MyOp
  | setTrue (n : String) : MyOp
  | setFalse (n : String) : MyOp

/-- Apply one mutating operation. -/
def MyState.applyOp (m : MyState) : MyOp → MyState
  | .clearOp => m.clear
  | .setTrue n => m.set_flag_true n
  | .setFalse n => m.set_flag_false n

/-- The single key an operation writes. -/
def writtenKey : MyOp → String
  | .clearOp => "in_start"
  | .setTrue n => n
  | .setFalse n => n

/-- All keys written by a sequence of operations. -/
def writtenKeys (ops : List MyOp) : List String :=
  ops.map writtenKey
/-- Helper: `countLoads` distributes over append. -/
theorem countLoads_append {ι : Type} (a b : List (Event ι)) :
    countLoads (a ++ b) = countLoads a + countLoads b :=
  List.countP_append _ _ _

/-- Helper: a global-command dispatch never emits a scenario-load event. -/
theorem countLoads_exec_game_command {ι σ : Type} (gm : GameMaster ι σ)
    (c : String) : countLoads (gm.exec_game_command c).2.2 = 0 := by
  unfold GameMaster.exec_game_command
  cases gm.commands.lookup c <;> simp [countLoads]

/-- Helper: a scenario on-input dispatch never emits a scenario-load event. -/
theorem countLoads_exec_current_scenario {ι σ : Type} (gm : GameMaster ι σ)
    (c : String) : countLoads (gm.exec_current_scenario c).2.2 = 0 := by
  simp [GameMaster.exec_current_scenario, countLoads]

/-- Helper: a successful `load_scenario` emits exactly one load event. -/
theorem countLoads_load_scenario {ι σ : Type} (gm : GameMaster ι σ)
    (r : Int × GameMaster ι σ × List (Event ι))
    (h : gm.load_scenario = .ok r) : countLoads r.2.2 = 1 := by
  unfold GameMaster.load_scenario at h
  cases hs : gm.loader.get_scenario with
  | none => rw [hs] at h; cases h
  | some s => rw [hs] at h; cases h; simp [countLoads]

/-- Helper: the loop's trace is empty or begins with a read event. -/
theorem mainLoopAux_head_read {ι σ : Type} (gm : GameMaster ι σ)
    (inputs : List (Option String)) :
    (gm.mainLoopAux inputs).1 = [] ∨
      ∃ i t, (gm.mainLoopAux inputs).1 = Event.readLine i :: t := by
  cases inputs with
  | nil => exact Or.inl rfl
  | cons i rest =>
      cases i with
      | none => exact Or.inr ⟨none, _, rfl⟩
      | some s =>
          right
          unfold GameMaster.mainLoopAux
          cases h : gm.turn s with
          | error d => exact ⟨some s, [], by simp [h]⟩
          | ok g =>
              exact ⟨some s, g.2 ++ (g.1.mainLoopAux rest).1, by simp [h]⟩

/-- Helper: a successful turn emits at most one scenario-load event. -/
theorem turn_ok_countLoads {ι σ : Type} (gm : GameMaster ι σ) (input : String)
    (g : GameMaster ι σ × List (Event ι)) (h : gm.turn input = .ok g) :
    countLoads g.2 ≤ 1 := by
  simp only [GameMaster.turn] at h
  split at h
  · split at h
    · cases h
    · rename_i r3 hl
      cases h
      simp [countLoads_append, countLoads_exec_game_command,
        countLoads_load_scenario _ _ hl]
  · split at h
    · split at h
      · cases h
      · rename_i r4 hl
        cases h
        simp [countLoads_append, countLoads_exec_game_command,
          countLoads_exec_current_scenario,
          countLoads_load_scenario _ _ hl]
    · cases h
      simp [countLoads_append, countLoads_exec_game_command,
        countLoads_exec_current_scenario]

/-- Helper: the prefix of a trace built from a startup load event followed by
the loop's events, cut at the first read, is that single load event. -/
theorem takeWhile_loadEv_cons {ι σ : Type} (g : GameMaster ι σ) (c : ι)
    (inputs : List (Option String)) :
    (Event.loadEv c :: (g.mainLoopAux inputs).1).takeWhile
      (fun e => !e.isRead) = [Event.loadEv c] := by
  rcases mainLoopAux_head_read g inputs with h | ⟨i, t, h⟩ <;>
    simp [h, Event.isRead]

/-- C1: FAILS on the code.  The claim says the global-command handler matching
the input is invoked exactly once per turn.  `main_loop` calls
`exec_game_command` twice on the same line (master.rs lines 258 and 259), so a
matching command's `execute` runs twice: with a command that counts its
invocations registered under `"hit"`, the single input `"hit"` leaves the
counter at 2 and the trace shows two `cmdExec` events. -/
theorem C1_command_executes_twice :
    runTrace gmC1 [some "hit"] =
      [Event.loadEv SId.start, Event.readLine (some "hit"),
        Event.cmdExec "hit", Event.cmdExec "hit",
        Event.action SId.start "hit"] ∧
    finalStateOf gmC1 [some "hit"] = some 2 :=
  ⟨rfl, rfl⟩

/-- C2: FAILS on the code.  The claim says a matching global command pre-empts
the scenario's on-input for the turn regardless of the command's outcome.  In
the code the scenario branch is skipped only on a `LOAD` outcome: with an
inert command registered under `"hello"` (returning `TICK`) and a scenario
that counts `do_action` calls, the input `"hello"` still invokes `do_action`
(counter 1, `action` event in the trace). -/
theorem C2_scenario_invoked_despite_command_match :
    runTrace gmC2 [some "hello"] =
      [Event.loadEv SId.start, Event.readLine (some "hello"),
        Event.cmdExec "hello", Event.cmdExec "hello",
        Event.action SId.start "hello"] ∧
    finalStateOf gmC2 [some "hello"] = some 1 :=
  ⟨rfl, rfl⟩

/-- C3: FAILS on the code.  The claim says end-of-input causes an orderly stop
and the engine never loops back to retry the read.  The `None => { continue }`
arm loops straight back: a `none` read leaves the engine state unchanged and
continues with the next read, and a run fed three end-of-input signals keeps
reading all three times. -/
theorem C3_eof_retries_read :
    (∀ (ι σ : Type) (gm : GameMaster ι σ) (rest : List (Option String)),
      gm.mainLoopAux (none :: rest) =
        (Event.readLine none :: (gm.mainLoopAux rest).1,
          (gm.mainLoopAux rest).2)) ∧
    runTrace gmC3 [none, none, none] =
      [Event.loadEv SId.start, Event.readLine none, Event.readLine none,
        Event.readLine none] :=
  ⟨fun _ _ _ _ => rfl, rfl⟩

/-- C4 counterexample: `start`'s on-input transitions to `second`, whose
on-enter itself returns `LOAD` with `third` set in the loader; the claim says
`third`'s on-enter is then invoked before the next read, but the run's trace
ends at `second`'s load event and contains no load of `third`. -/
theorem C4_counterexample :
    runTrace gmC4 [some "go"] =
      [Event.loadEv SId.start, Event.readLine (some "go"),
        Event.action SId.start "go", Event.loadEv SId.second] ∧
    Event.loadEv SId.third ∉ runTrace gmC4 [some "go"] :=
  ⟨rfl, by decide⟩

/-- C4 (amended): the outcome of `load_scenario` (the on-enter result) is
discarded at both `main_loop` call sites, so the load sequence is never
repeated within a turn: every successful turn emits at most one scenario-load
event. -/
theorem C4_on_enter_outcome_discarded {ι σ : Type} (gm : GameMaster ι σ)
    (input : String) : countLoads (turnEventsOf gm input) ≤ 1 := by
  unfold turnEventsOf
  cases h : gm.turn input with
  | error d => simp [countLoads]
  | ok g => exact turn_ok_countLoads gm input g h

/-- C5: whenever the loader requests the currently active scenario (a
self-reload), `load_scenario` invokes that scenario's `load` again — it is
never skipped; and in the concrete self-reload run of the spec (two inputs,
each producing a self-`LOAD`), on-enter runs three times: once at startup and
once more per turn. -/
theorem C5_reload_always_calls_load :
    (∀ (ι σ : Type) (gm : GameMaster ι σ),
      gm.loader.scenario = some gm.current →
      loadEventsOf gm.load_scenario = [Event.loadEv gm.current]) ∧
    countLoads (runTrace gmC5 [some "x", some "x"]) = 3 := by
  refine ⟨?_, rfl⟩
  intro ι σ gm h
  simp [GameMaster.load_scenario, Loader.get_scenario, h, loadEventsOf]

/-- C5 witness: the self-reload engine has its own scenario pending, and
`load_scenario` on it emits the load event for the current scenario. -/
theorem C5_reload_always_calls_load_witness :
    gmC5.loader.scenario = some gmC5.current ∧
    loadEventsOf gmC5.load_scenario = [Event.loadEv gmC5.current] :=
  ⟨rfl, C5_reload_always_calls_load.1 SId Nat gmC5 rfl⟩

/-- C6 counterexample: with the loader slot empty, `load_scenario` halts with
the `unwrap` panic, a diagnostic that names no scenario — contradicting the
claim that the engine reports a diagnostic naming the missing scenario. -/
theorem C6_counterexample :
    gmC6.load_scenario = Except.error Diag.unwrapPanic ∧
    Diag.namesScenario (Diag.unwrapPanic : Diag SId) = false :=
  ⟨rfl, rfl⟩

/-- C6 (amended): whenever a load is attempted while the loader holds no
scenario, the engine halts via the `unwrap` panic — it never silently ignores
the request and never substitutes a fallback scenario — but the diagnostic
does not name any scenario (transitions are by scenario reference, not by
name, so there is no missing name to report). -/
theorem C6_empty_loader_panics (ι σ : Type) (gm : GameMaster ι σ)
    (h : gm.loader.scenario = none) :
    gm.load_scenario = Except.error Diag.unwrapPanic := by
  simp [GameMaster.load_scenario, Loader.get_scenario, h]

/-- C6 witness: the engine whose loader was never set panics on load. -/
theorem C6_empty_loader_panics_witness :
    gmC6.loader.scenario = none ∧
    gmC6.load_scenario = Except.error Diag.unwrapPanic :=
  ⟨rfl, C6_empty_loader_panics SId Nat gmC6 rfl⟩

/-- C7: for every engine and every input sequence, the run's trace up to the
first read event is exactly one load event for the start scenario: the start
scenario's on-enter runs exactly once before any line of input is read. -/
theorem C7_start_load_before_any_read {ι σ : Type} (gm : GameMaster ι σ)
    (inputs : List (Option String)) :
    (runTrace gm inputs).takeWhile (fun e => !e.isRead) =
      [Event.loadEv gm.current] :=
  takeWhile_loadEv_cons _ _ inputs

/-- C8: committing a pending transition on a `BasicState` sets the current
scenario to the previously pending name and clears the pending transition. -/
theorem C8_load_scenario_commits_and_clears (s : BasicState) :
    (s.load_scenario).get_current_scenario = s.get_next_scenario ∧
    (s.load_scenario).has_next_scenario = false :=
  ⟨rfl, rfl⟩

/-- Helper: a key outside the written set stays absent from the flag map. -/
theorem lookup_none_of_unwritten (ops : List MyOp) :
    ∀ (m : MyState) (K : String), K ∉ writtenKeys ops →
      m.flags.lookup K = none →
      ((ops.foldl MyState.applyOp m).flags.lookup K) = none := by
  induction ops with
  | nil => intro m K _ hm; simpa using hm
  | cons op ops ih =>
      intro m K hK hm
      simp only [writtenKeys, List.map_cons, List.mem_cons, not_or] at hK
      obtain ⟨h1, h2⟩ := hK
      have hb : (K == writtenKey op) = false := beq_eq_false_iff_ne.mpr h1
      apply ih (m.applyOp op) K (by simpa [writtenKeys] using h2)
      cases op with
      | clearOp =>
          simp only [MyState.applyOp, MyState.clear, List.lookup, hm]
          rw [show (K == "in_start") = false from by simpa [writtenKey] using hb]
      | setTrue n =>
          simp only [MyState.applyOp, MyState.set_flag_true, List.lookup, hm]
          rw [show (K == n) = false from by simpa [writtenKey] using hb]
      | setFalse n =>
          simp only [MyState.applyOp, MyState.set_flag_false, List.lookup, hm]
          rw [show (K == n) = false from by simpa [writtenKey] using hb]

/-- C9: for every key never written by any sequence of the example state's
mutating operations, `get_flag` returns the documented default `false`. -/
theorem C9_unset_flag_reads_false (ops : List MyOp) (K : String)
    (h : K ∉ writtenKeys ops) :
    (ops.foldl MyState.applyOp MyState.new).get_flag K = false := by
  have hn := lookup_none_of_unwritten ops MyState.new K h rfl
  simp [MyState.get_flag, hn]

/-- C9 witness: after setting `"a"`, reading the never-written `"b"` gives
`false`. -/
theorem C9_unset_flag_reads_false_witness :
    ("b" ∉ writtenKeys [MyOp.setTrue "a"]) ∧
    ([MyOp.setTrue "a"].foldl MyState.applyOp MyState.new).get_flag "b"
      = false :=
  ⟨by decide, C9_unset_flag_reads_false [MyOp.setTrue "a"] "b" (by decide)⟩

/-- C10: `Loader::get_scenario` is partial: on a loader on which
`set_scenario` was never called it hits the `unwrap` panic (modelled `none`);
after at least one `set_scenario`, it returns the most recently set
scenario. -/
theorem C10_get_scenario_unset_and_set :
    (∀ (ι : Type), (Loader.new : Loader ι).get_scenario = none) ∧
    (∀ (ι : Type) (sets : List ι) (s : ι),
      ((sets ++ [s]).foldl Loader.set_scenario Loader.new).get_scenario
        = some s) := by
  refine ⟨fun _ => rfl, fun ι sets s => ?_⟩
  simp [List.foldl_append, Loader.set_scenario, Loader.get_scenario]
